import Mathlib

/-!
Verification of the Call Orchestration Engine of `asterisk_dialer_api.py`
against its natural-language specification.

The Python source is shallowly embedded: pure string processing becomes Lean
functions on `String`/`List String`, socket reads become lists of received
chunks, the AMI switch becomes an observation trace indexed by poll iteration,
and the concurrent status writers become a small-step transition system.
-/

namespace VoiceClone

/-- Python's substring test `needle in hay` (`True` for the empty needle). -/
def isSubstrAux (n : List Char) : List Char → Bool
  | [] => n.isEmpty
  | c :: t => n.isPrefixOf (c :: t) || isSubstrAux n t

/-- `isSubstrOf needle hay` models Python `needle in hay` on strings. -/
def isSubstrOf (needle hay : String) : Bool :=
  isSubstrAux needle.toList hay.toList

/-- Count non-overlapping occurrences of a (nonempty) needle, as Python
`str.count` does; used for `list_response.count("Channel:")`. The fuel is
the haystack length, which bounds the number of scan steps. -/
def countOccAux (n : List Char) : Nat → List Char → Nat
  | 0, _ => 0
  | _, [] => 0
  | fuel + 1, c :: t =>
    if n ≠ [] ∧ n.isPrefixOf (c :: t) then
      1 + countOccAux n fuel ((c :: t).drop n.length)
    else
      countOccAux n fuel t

/-- `countOcc needle hay` models Python `hay.count(needle)`. -/
def countOcc (needle hay : String) : Nat :=
  countOccAux needle.toList hay.toList.length hay.toList

/-- Python `str.strip()` on a character list: drop leading and trailing
whitespace. -/
def pyStripList (l : List Char) : List Char :=
  ((l.dropWhile Char.isWhitespace).reverse.dropWhile Char.isWhitespace).reverse

/-- Python `s.strip()`. -/
def pyStrip (s : String) : String :=
  String.mk (pyStripList s.toList)

/-- Python `s.startswith(pre)`. -/
def pyStartsWith (s pre : String) : Bool :=
  pre.toList.isPrefixOf s.toList

/-- Python truthiness of a string (`if s:`). -/
def pyIsEmpty (s : String) : Bool :=
  s.toList.isEmpty

/-- Python `line.split(":")[1]`: the text between the first colon and the
second colon or the end of the line (callers guard that a colon exists). -/
def colonField1 (s : String) : String :=
  String.mk (((s.toList.dropWhile (fun c => c ≠ ':')).drop 1).takeWhile
    (fun c => c ≠ ':'))

/-- Python `s.lower()` (over the ASCII range the source compares against). -/
def pyLower (s : String) : String :=
  String.mk (s.toList.map Char.toLower)

/-- Python `s.replace(old, new)` with an empty replacement: delete every
non-overlapping occurrence of the (nonempty) needle, left to right. The
fuel is the string length, which bounds the number of scan steps. -/
def pyDeleteAux (n : List Char) : Nat → List Char → List Char
  | 0, h => h
  | _, [] => []
  | fuel + 1, c :: t =>
    if n ≠ [] ∧ n.isPrefixOf (c :: t) then
      pyDeleteAux n fuel ((c :: t).drop n.length)
    else
      c :: pyDeleteAux n fuel t

/-- Python `s.replace(needle, '')`. -/
def pyDelete (needle s : String) : String :=
  String.mk (pyDeleteAux needle.toList s.toList.length s.toList)

/-- Python `line.split()[0]` (first whitespace-separated token), with `""`
standing for the empty-parts case that Python guards with `if parts`. -/
def firstToken (s : String) : String :=
  String.mk ((pyStripList s.toList).takeWhile (fun c => !c.isWhitespace))

/-- Insertion into the Python `set connected_channels`, represented as a
duplicate-free list. -/
def insertUniq (s : List String) (x : String) : List String :=
  if s.contains x then s else s ++ [x]

/-- The channel-line scan used throughout the source: keep lines starting with
`Channel:` and take `line.split(":")[1].strip()`. -/
def parseChannels (lines : List String) : List String :=
  lines.filterMap (fun l =>
    if pyStartsWith l "Channel:" then some (pyStrip (colonField1 l))
    else none)

/-- The `ActionID:\s*(\S+)` search of `re.search` in `initiate_call_asterisk`:
find an occurrence of `ActionID:` followed (after optional whitespace) by a
nonempty run of non-whitespace characters. -/
def parseActionIdAux : List Char → Option String
  | [] => none
  | c :: t =>
    if "ActionID:".toList.isPrefixOf (c :: t) then
      let rest := (c :: t).drop 9
      let tok := (rest.dropWhile Char.isWhitespace).takeWhile
        (fun ch => !ch.isWhitespace)
      if tok.isEmpty then parseActionIdAux t else some (String.mk tok)
    else parseActionIdAux t

/-- Extract the correlation identifier from a raw originate response. -/
def parseActionId (resp : String) : Option String :=
  parseActionIdAux resp.toList

/-! ## Protocol Client (`ami_send_action`, lines 848–889) -/

/-- The CRLF line terminator used by the AMI wire protocol. -/
def amiCRLF : String := "\r\n"

/-- Serialization of an action, mirroring the `cmd += ...` accumulation in
`ami_send_action`: a header line, one `Key: value` line per parameter, each
CRLF-terminated, then a blank-line terminator. -/
def ami_build_cmd (action : String) (params : List (String × String)) : String :=
  (params.foldl (fun cmd kv => cmd ++ (kv.1 ++ ": " ++ kv.2 ++ amiCRLF))
    ("Action: " ++ action ++ amiCRLF)) ++ amiCRLF

/-- One step of the read loop of `ami_send_action`: `while buffer:` — append
the buffer to the response, stop once the blank-line terminator `\r\n\r\n`
appears in the accumulated response, otherwise issue another `recv` (a
timeout, i.e. an exhausted chunk list, breaks the loop). -/
def amiReadLoop (buffer resp : String) (rest : List String) : String :=
  if buffer = "" then resp
  else
    let resp2 := resp ++ buffer
    if isSubstrOf "\r\n\r\n" resp2 then resp2
    else
      match rest with
      | [] => resp2
      | b :: r => amiReadLoop b resp2 r

/-- The receive side of `ami_send_action`: the successive `recv` results are
modelled as a list of chunks. -/
def ami_read_response : List String → String
  | [] => ""
  | b :: rest => amiReadLoop b "" rest

/-- `ami_send_action` as a whole: the wire command it sends and the raw
response it returns for a given sequence of received chunks. -/
def ami_send_action (action : String) (params : List (String × String))
    (chunks : List String) : String × String :=
  (ami_build_cmd action params, ami_read_response chunks)

/-- The block of `Key: value` lines of a serialized action, structured
line-by-line (used to state what the foldl accumulation produces). -/
def paramBlock : List (String × String) → String
  | [] => ""
  | kv :: rest => kv.1 ++ ": " ++ kv.2 ++ amiCRLF ++ paramBlock rest

/-! ## Connection Monitor (`monitor_call_status`, lines 252–405)

One poll iteration observes the switch: the raw line lists of the
`CoreShowChannels` and `ConfbridgeList` responses, and the CLI fallback
output (`none` models the CLI `subprocess` call raising, which the source
catches and ignores). A `none` observation for the whole iteration models
`ami_send_action` returning `None`, on which the source's line scan raises
and control reaches the outer `except` handler. -/

/-- One switch observation per poll iteration. -/
structure MonObs where
  activeLines : List String
  confLines : List String
  cli : Option (List String)
deriving DecidableEq

/-- Which exit of `monitor_call_status` produced the status update. -/
inductive MonRule
  | twoDirect
  | twoConf
  | graceConf
  | twoCli
  | graceCli
  | timedOut
  | monError
deriving DecidableEq

/-- The arguments of the single `update_call_status` call the monitor makes:
the status literal, the `total_waited` value at that point, the optional
`channels` entry of `additional_data`, and the optional `error_msg` entry. -/
structure MonUpdate where
  status : String
  waited : Nat
  channels : Option (List String)
  errorMsg : Option String
  rule : MonRule
deriving DecidableEq

/-- The final update after the while loop exhausts the window (line 391). -/
def monTimeoutUpdate (w : Nat) (conn : List String) : MonUpdate :=
  { status := "connected", waited := w, channels := some conn,
    errorMsg := none, rule := .timedOut }

/-- The update made by the outer `except` handler (line 399). -/
def monErrorUpdate (w : Nat) (msg : String) : MonUpdate :=
  { status := "connected", waited := w, channels := none,
    errorMsg := some msg, rule := .monError }

/-- The usefulness test on the CLI output (line 354): no
`No active conferences` marker and a nonempty stripped output. -/
def cliUseful (lines : List String) : Bool :=
  (!(lines.any (fun l => isSubstrOf "No active conferences" l))) &&
  (lines.any (fun l => !(pyIsEmpty (pyStrip l))))

/-- One line of the CLI participant scan (lines 359–368): skip the header
line, count participant-looking lines, and collect `SIP/`/`Local/` leading
tokens into the connected set. -/
def cliScanStep (acc : Nat × List String) (line : String) : Nat × List String :=
  if isSubstrOf "Channel" line && isSubstrOf "User Profile" line then acc
  else if (!(pyIsEmpty (pyStrip line))) && (!(pyStartsWith line "No")) &&
      (!(isSubstrOf "===" line)) then
    let tok := firstToken line
    if pyStartsWith tok "SIP/" || pyStartsWith tok "Local/" then
      (acc.1 + 1, insertUniq acc.2 tok)
    else
      (acc.1 + 1, acc.2)
  else acc

/-- The full CLI scan over the output lines. -/
def cliScan (conn : List String) (lines : List String) : Nat × List String :=
  lines.foldl cliScanStep (0, conn)

/-- Add an optional channel to the connected set. -/
def pushOpt (conn : List String) : Option String → List String
  | some c => insertUniq conn c
  | none => conn

/-- The conference-listing and CLI-fallback part of one loop body (lines
306–384), entered with the connected set as updated by the direct channel
scan: either a decision fires (`Sum.inl` carries the update written) or the
iteration falls through to the sleep with the updated connected set
(`Sum.inr`). -/
def monIterConf (obs : MonObs) (w : Nat) (conn1 : List String) :
    Sum MonUpdate (List String) :=
  let pCount := (obs.confLines.map (fun l => countOcc "Channel:" l)).sum
  let conn2 := (parseChannels obs.confLines).foldl insertUniq conn1
  if 2 ≤ pCount ∨ 2 ≤ conn2.length then
    Sum.inl { status := "connected", waited := w, channels := some conn2,
              errorMsg := none, rule := .twoConf }
  else if (pCount = 1 ∨ conn2.length = 1) ∧ 10 ≤ w then
    Sum.inl { status := "connected", waited := w, channels := some conn2,
              errorMsg := none, rule := .graceConf }
  else
    match obs.cli with
    | none => Sum.inr conn2
    | some cliLines =>
      if cliUseful cliLines then
        if 2 ≤ (cliScan conn2 cliLines).1 ∨
            2 ≤ (cliScan conn2 cliLines).2.length then
          Sum.inl { status := "connected", waited := w,
                    channels := some (cliScan conn2 cliLines).2,
                    errorMsg := none, rule := .twoCli }
        else if (cliScan conn2 cliLines).1 = 1 ∧ 10 ≤ w then
          Sum.inl { status := "connected", waited := w,
                    channels := some (cliScan conn2 cliLines).2,
                    errorMsg := none, rule := .graceCli }
        else Sum.inr (cliScan conn2 cliLines).2
      else Sum.inr conn2

/-- One body execution of the monitor's while loop at `total_waited = w`:
the direct channel scan (lines 279–304) followed by the conference and CLI
checks. -/
def monIter (sip dest : String) (obs : MonObs) (w : Nat) (conn : List String) :
    Sum MonUpdate (List String) :=
  let active := parseChannels obs.activeLines
  let sipCh := active.find? (fun c => isSubstrOf sip c)
  let destCh := active.find? (fun c => isSubstrOf dest c)
  if sipCh.isSome || destCh.isSome then
    if 2 ≤ (pushOpt (pushOpt conn sipCh) destCh).length then
      Sum.inl { status := "connected", waited := w, channels := none,
                errorMsg := none, rule := .twoDirect }
    else monIterConf obs w (pushOpt (pushOpt conn sipCh) destCh)
  else monIterConf obs w conn

/-- The monitor's polling loop (`while total_waited < max_wait_time`, 30 s
window, 2 s interval). The fuel argument only bounds recursion; 16 units
always outlast the window. -/
def monLoop (sip dest : String) (trace : Nat → Option MonObs) :
    Nat → Nat → Nat → List String → MonUpdate
  | 0, _, w, conn => monTimeoutUpdate w conn
  | fuel + 1, i, w, conn =>
    if w < 30 then
      match trace i with
      | none => monErrorUpdate w "AMI send action failed"
      | some obs =>
        match monIter sip dest obs w conn with
        | Sum.inl u => u
        | Sum.inr conn2 => monLoop sip dest trace fuel (i + 1) (w + 2) conn2
    else monTimeoutUpdate w conn

/-- `monitor_call_status`: `none` when the call record is missing (the
function returns without any update, line 263); otherwise the single status
update it performs. A failed `ami_connect` raises and is absorbed by the
outer handler (lines 266–268, 396–401). -/
def monitor_call_status (sip dest : String) (recordExists amiOk : Bool)
    (trace : Nat → Option MonObs) : Option MonUpdate :=
  match recordExists, amiOk with
  | false, _ => none
  | true, false => some (monErrorUpdate 0 "Failed to connect to AMI")
  | true, true => some (monLoop sip dest trace 16 0 0 [])

/-- A window in which the switch reports no channels at all: empty channel
list, empty conference listing, empty CLI output. -/
def emptyMonObs : MonObs :=
  { activeLines := [], confLines := [], cli := some [] }

/-- A window in which the switch reports exactly one channel matching the
agent endpoint `2001` and nothing else. -/
def oneChannelObs : MonObs :=
  { activeLines := ["Channel: SIP/2001-0000a1"], confLines := [],
    cli := some [] }

/-- The update the monitor writes on the one-channel window: the grace rule
fires exactly at the 10-second threshold. -/
def oneChannelUpdate : MonUpdate :=
  { status := "connected", waited := 10,
    channels := some ["SIP/2001-0000a1"], errorMsg := none,
    rule := .graceConf }

/-! ## Call records and the Record Store -/

/-- The call-record fields the orchestration engine reads and writes. -/
structure CallRecord where
  id : String
  status : String
  caller_id : Option String := none
  destination : String := ""
  sip_name : String := ""
  sip_trunk : String := ""
  conference_room : Option String := none
  tts_file : Option String := none
deriving DecidableEq

/-- `get_call_by_id` (lines 105–111): first record with a matching id. -/
def get_call_by_id (records : List CallRecord) (callId : String) :
    Option CallRecord :=
  records.find? (fun r => r.id == callId)

/-! ## Leg Originator (`initiate_call_asterisk`, lines 163–250)

The function's side effects are recorded as an event trace; the outcome
carries the arguments of the final `update_call_status` call. The only
statement in the `try` block that raises is the explicit raise on a failed
`ami_connect` (`ami_send_action` and `ami_connect` catch their own
exceptions internally and return `None`). -/

/-- The two call legs. -/
inductive Leg
  | agent
  | customer
deriving DecidableEq

/-- Side effects of `initiate_call_asterisk`, in program order. -/
inductive InitEv
  | genRoom (room : String)
  | amiConnectEv
  | sendOriginate (leg : Leg) (params : List (String × String))
  | storeOnRecord (field : String) (value : Option String)
  | sleepSecs (n : Nat)
  | startMonitor (callId room : String)
  | updateStatus (st : String)
  | amiCloseEv
deriving DecidableEq

/-- The `additional_data` of the `dialing` update (lines 234–239). -/
structure DialingUpdate where
  conference_room : String
  start_time : Nat
  agent_action_id : Option String
  customer_action_id : Option String
deriving DecidableEq

/-- Outcome of `initiate_call_asterisk`: the final status update made. -/
inductive InitOutcome
  | dialing (u : DialingUpdate)
  | failedWith (error : String)
deriving DecidableEq

/-- `''.join(random.choices('0123456789', k=6))` with the random stream
modelled as a function from pick index to a natural number. -/
def confRoomOf (rng : Nat → Nat) : String :=
  String.mk ((List.range 6).map (fun i => Nat.digitChar (rng i % 10)))

/-- Caller-id name and number defaulting (lines 176–178); Python treats an
empty string as falsy, so it also falls back to the defaults. -/
def callerIdOf (caller_id : Option String) : String × String :=
  match caller_id with
  | some c => if pyIsEmpty c then ("TTS Call", "0000000000") else (c, c)
  | none => ("TTS Call", "0000000000")

/-- The parameter list of an `Originate` action for one leg. -/
def originateParams (channel room callerName callerNum : String) :
    List (String × String) :=
  [("Channel", channel), ("Application", "ConfBridge"), ("Data", room),
   ("CallerID", "\"" ++ callerName ++ "\" <" ++ callerNum ++ ">"),
   ("Timeout", "30000"), ("Async", "true")]

/-- `initiate_call_asterisk`: event trace and final status update, given the
random stream, whether `ami_connect` succeeds, the two raw originate
responses (`none` models `ami_send_action` returning `None`), and the wall
clock for `start_time`. -/
def initiate_call_asterisk (rec : CallRecord) (rng : Nat → Nat) (amiOk : Bool)
    (agentResp custResp : Option String) (now : Nat) :
    List InitEv × InitOutcome :=
  let room := confRoomOf rng
  if amiOk then
    let cid := callerIdOf rec.caller_id
    let agentParams := originateParams ("SIP/" ++ rec.sip_name) room cid.1 cid.2
    let agentId := parseActionId (agentResp.getD "")
    let custParams :=
      originateParams ("SIP/" ++ rec.sip_trunk ++ "/" ++ rec.destination)
        room cid.1 cid.2
    let custId := parseActionId (custResp.getD "")
    ([.genRoom room, .amiConnectEv,
      .sendOriginate .agent agentParams,
      .storeOnRecord "conference_room" (some room),
      .storeOnRecord "agent_action_id" agentId,
      .sleepSecs 2,
      .sendOriginate .customer custParams,
      .storeOnRecord "customer_action_id" custId,
      .startMonitor rec.id room,
      .updateStatus "dialing",
      .amiCloseEv],
     .dialing { conference_room := room, start_time := now,
                agent_action_id := agentId, customer_action_id := custId })
  else
    ([.genRoom room, .amiConnectEv, .updateStatus "failed", .amiCloseEv],
     .failedWith "Failed to connect to AMI")

/-- Event classifier: the in-memory store of the conference room id. -/
def isStoreRoomEv : InitEv → Bool
  | .storeOnRecord "conference_room" _ => true
  | _ => false

/-- Event classifier: any leg origination. -/
def isOriginateEv : InitEv → Bool
  | .sendOriginate _ _ => true
  | _ => false

/-- Event classifier: conference room generation. -/
def isGenRoomEv : InitEv → Bool
  | .genRoom _ => true
  | _ => false

/-- Event classifier: origination of a given leg. -/
def isLegOrigEv (leg : Leg) : InitEv → Bool
  | .sendOriginate l _ => l == leg
  | _ => false

/-- Event classifier: the monitor-thread start. -/
def isMonitorEv : InitEv → Bool
  | .startMonitor _ _ => true
  | _ => false

/-- Event classifier: a status update to a given value. -/
def isStatusEv (st : String) : InitEv → Bool
  | .updateStatus s => s == st
  | _ => false

/-- Event classifier: the settle delay. -/
def isSleepEv : InitEv → Bool
  | .sleepSecs _ => true
  | _ => false

/-- The ordering asserted by the spec for the conference room: stored on the
record strictly before any leg is originated. -/
def roomStoredBeforeOrigination (evs : List InitEv) : Prop :=
  ∃ i j, evs.findIdx? isStoreRoomEv = some i ∧
    evs.findIdx? isOriginateEv = some j ∧ i < j

/-! ## Audio Injector (`play_tts_in_conference`, lines 407–582) -/

/-- The environment of one playback attempt: file existence, AMI
availability, the raw responses of the three discovery queries, the CLI
fallback output (`none` models the `subprocess` call raising), and the
per-channel playback responses. -/
structure PlayEnv where
  fileExists : Bool
  amiOk : Bool
  allChannelsLines : List String
  confRoomsLines : List String
  confLines : List String
  cli : Option (List String)
  originateResp : String → String
  cliPlayOut : String → String

/-- CLI channel discovery (lines 479–483): append first tokens of `SIP/` or
`Local/` lines not already present. -/
def cliChannelAdds (channels : List String) (cli : Option (List String)) :
    List String :=
  match cli with
  | none => channels
  | some ls =>
    ls.foldl (fun chs line =>
      if pyStartsWith line "SIP/" || pyStartsWith line "Local/" then
        let nm := firstToken line
        if (!(pyIsEmpty nm)) && !(chs.contains nm) then chs ++ [nm] else chs
      else chs) channels

/-- `sip_name.replace('SIP/', '')` (line 497). -/
def stripSIP (s : String) : String := pyDelete "SIP/" s

/-- Endpoint-name pattern matching against active channels (lines 488–502),
attempted only when discovery is still empty and active channels exist. -/
def patternMatchAdds (rec : CallRecord) (channels active : List String) :
    List String :=
  if channels.isEmpty && !active.isEmpty then
    active.foldl (fun chs ch =>
      let sip := stripSIP rec.sip_name
      if ((!(pyIsEmpty sip)) && isSubstrOf sip ch) ||
         ((!(pyIsEmpty rec.destination)) && isSubstrOf rec.destination ch) then
        chs ++ [ch]
      else chs) channels
  else channels

/-- The three-strategy channel discovery of `play_tts_in_conference`: the
channels found (conference listing, then CLI, then endpoint matching) and
the active-channel list (scanned only when the conference listing was
empty, as in the source). -/
def discoveredChannels (rec : CallRecord) (env : PlayEnv) :
    List String × List String :=
  let channels0 := parseChannels env.confLines
  if channels0.isEmpty then
    let active := parseChannels env.allChannelsLines
    let channels1 := cliChannelAdds channels0 env.cli
    let channels2 := patternMatchAdds rec channels1 active
    (channels2, active)
  else (channels0, [])

/-- The playback strategies (lines 519–573): per-channel `Originate`
playback stopping at the first `Success`, then the CLI fallback accepting
any output free of `failed` and `error`. -/
def playAttempts (env : PlayEnv) (channels : List String) : Bool :=
  if channels.any (fun ch => isSubstrOf "Success" (env.originateResp ch)) then
    true
  else if channels.any (fun ch =>
      (!(isSubstrOf "failed" (pyLower (env.cliPlayOut ch)))) &&
      (!(isSubstrOf "error" (pyLower (env.cliPlayOut ch))))) then
    true
  else false

/-- `play_tts_in_conference`: `false` on any raised exception (missing room
or file, failed connect, empty discovery beyond the last-resort cap, or all
playback methods failing), `true` on playback success. -/
def play_tts_in_conference (rec : CallRecord) (env : PlayEnv) : Bool :=
  match rec.conference_room with
  | none => false
  | some _room =>
    match rec.tts_file with
    | none => false
    | some _file =>
      if !env.fileExists then false
      else if !env.amiOk then false
      else if (discoveredChannels rec env).1.isEmpty then
        if (discoveredChannels rec env).2 ≠ [] ∧
            (discoveredChannels rec env).2.length ≤ 5 then
          playAttempts env (discoveredChannels rec env).2
        else false
      else playAttempts env (discoveredChannels rec env).1

/-! ## Teardown (`hangup_call`, lines 584–607) -/

/-- Side effects of `hangup_call`, in program order. -/
inductive HangEv
  | kickAll (room : String)
  | updateCompleted (endTime : Nat)
deriving DecidableEq

/-- The `completed` update with its end timestamp (lines 602–604). -/
structure CompletedUpdate where
  status : String
  end_time : Nat
deriving DecidableEq

/-- `hangup_call`: kick all participants, then mark `completed`. A missing
room or a failing kick command raises, is logged, and the function returns
`None` with no status update. -/
def hangup_call (rec : CallRecord) (kickOk : Bool) (now : Nat) :
    List HangEv × Option CompletedUpdate :=
  match rec.conference_room with
  | none => ([], none)
  | some room =>
    if kickOk then
      ([.kickAll room, .updateCompleted now],
       some { status := "completed", end_time := now })
    else ([.kickAll room], none)

/-! ## The play-TTS endpoint (`play_tts`, lines 778–798) -/

/-- Responses of the `/{call_id}/play-tts` endpoint. -/
inductive PlayTtsResp
  | notFound
  | rejected (code : Nat) (msg : String)
  | scheduled
deriving DecidableEq

/-- The endpoint: 404 when the record is missing, 400 when the status is
neither `connected` nor `dialing`, otherwise playback is scheduled as a
background task. -/
def play_tts (records : List CallRecord) (callId : String) : PlayTtsResp :=
  match get_call_by_id records callId with
  | none => .notFound
  | some r =>
    if r.status ≠ "connected" ∧ r.status ≠ "dialing" then
      .rejected 400 "Call is not active"
    else .scheduled

/-! ## The concurrent status writers as a transition system

Per call, three writers touch `status` through `update_call_status` (which
overwrites unconditionally): the originator, the monitor thread it spawns,
and teardown. The 5-second initial monitor sleep (line 257) against the
immediate `dialing` write (line 234) is modelled by fusing thread start and
the `dialing` write into one step that arms the monitor. The monitor thread
is never cancelled and performs exactly one status write; the hangup
endpoint (lines 800–820) rejects records already `completed` or `failed`,
and `hangup_call` raises before any write when the room is missing, i.e.
when the record never left `initiated`. -/

/-- Per-call system state: current status, whether origination ran, and
whether a spawned monitor has not yet written its update. -/
structure Sys where
  status : String
  originated : Bool
  monPending : Bool
deriving DecidableEq

/-- The state of a freshly created record (line 701). -/
def initSys : Sys := { status := "initiated", originated := false, monPending := false }

/-- Atomic status writes of the three writers. -/
inductive SysStep : Sys → Sys → Prop
  | originateOk (s : Sys) (hst : s.status = "initiated") (ho : s.originated = false) :
      SysStep s { status := "dialing", originated := true, monPending := true }
  | originateFail (s : Sys) (hst : s.status = "initiated") (ho : s.originated = false) :
      SysStep s { status := "failed", originated := true, monPending := false }
  | monitorFires (s : Sys) (hm : s.monPending = true) :
      SysStep s { status := "connected", originated := s.originated, monPending := false }
  | hangupRuns (s : Sys) (hst : s.status = "dialing" ∨ s.status = "connected") :
      SysStep s { status := "completed", originated := s.originated, monPending := s.monPending }

/-- States reachable from a fresh record. -/
def SysReachable (s : Sys) : Prop :=
  Relation.ReflTransGen SysStep initSys s

/-- The transition edges of the spec's state-machine table (§4.3). -/
def specEdges : List (String × String) :=
  [("initiated", "dialing"), ("initiated", "failed"), ("dialing", "failed"),
   ("dialing", "connected"), ("dialing", "completed"), ("connected", "completed")]

/-- The reachable state space of the per-call system. -/
def sysStates : List Sys :=
  [⟨"initiated", false, false⟩, ⟨"dialing", true, true⟩,
   ⟨"failed", true, false⟩, ⟨"connected", true, false⟩,
   ⟨"completed", true, true⟩, ⟨"completed", true, false⟩]

/-! # Theorems -/

/-- The foldl accumulation of `cmd += key + ": " + value + CRLF` produces the
line-structured parameter block. -/
theorem foldl_paramBlock (l : List (String × String)) :
    ∀ init : String,
      l.foldl (fun cmd kv => cmd ++ (kv.1 ++ ": " ++ kv.2 ++ amiCRLF)) init =
        init ++ paramBlock l := by
  induction l with
  | nil => intro init; simp [paramBlock, String.append_empty]
  | cons kv rest ih =>
    intro init
    simp only [List.foldl_cons, paramBlock, ih]
    simp [String.append_assoc]

/-- One read-loop step that finds the terminator returns the accumulation. -/
theorem amiReadLoop_found (b resp : String) (rest : List String)
    (hb : ¬ b = "") (ht : isSubstrOf "\r\n\r\n" (resp ++ b) = true) :
    amiReadLoop b resp rest = resp ++ b := by
  unfold amiReadLoop
  rw [if_neg hb]
  simp only [ht]
  simp

/-- One read-loop step without the terminator consumes the next chunk. -/
theorem amiReadLoop_next (b resp b2 : String) (rest : List String)
    (hb : ¬ b = "") (ht : isSubstrOf "\r\n\r\n" (resp ++ b) = false) :
    amiReadLoop b resp (b2 :: rest) = amiReadLoop b2 (resp ++ b) rest := by
  conv_lhs => rw [amiReadLoop]
  rw [if_neg hb]
  simp only [ht]
  simp

/-- C7: `sendAction` serializes the action as a header line plus one
`Key: value` line per parameter, each CRLF-terminated and followed by a
blank-line terminator, and its read loop accumulates received chunks until
the blank-line terminator appears in the accumulated buffer, returning the
full accumulated raw response — even when the terminator only arrives in a
second read after the first. -/
theorem c7_send_action_framing :
    (∀ (action : String) (params : List (String × String))
        (chunks : List String),
      (ami_send_action action params chunks).1 =
        ("Action: " ++ action ++ amiCRLF) ++ paramBlock params ++ amiCRLF) ∧
    (∀ (action : String) (params : List (String × String))
        (c1 c2 : String) (rest : List String),
      c1 ≠ "" → c2 ≠ "" →
      isSubstrOf "\r\n\r\n" c1 = false →
      isSubstrOf "\r\n\r\n" (c1 ++ c2) = true →
      (ami_send_action action params (c1 :: c2 :: rest)).2 = c1 ++ c2) := by
  constructor
  · intro action params chunks
    simp only [ami_send_action, ami_build_cmd]
    rw [foldl_paramBlock]
  · intro action params c1 c2 rest h1 h2 hterm1 hterm2
    simp only [ami_send_action, ami_read_response]
    rw [amiReadLoop_next c1 "" c2 rest h1 (by rwa [String.empty_append]),
      String.empty_append,
      amiReadLoop_found c2 c1 rest h2 hterm2]

/-- C7 witness: a concrete exchange whose terminator arrives in the second
chunk. -/
theorem c7_send_action_framing_witness :
    (ami_send_action "Ping" [] ["Response: Suc", "cess\r\n\r\n", "late"]).2 =
      "Response: Suc" ++ "cess\r\n\r\n" :=
  c7_send_action_framing.2 "Ping" [] "Response: Suc" "cess\r\n\r\n" ["late"]
    (by decide) (by decide) (by decide) (by decide)

/-- Every decision the conference/CLI part fires writes `connected`, records
the current `total_waited`, and takes a grace exit only at or after the
10-second threshold. -/
theorem monIterConf_spec (obs : MonObs) (w : Nat) (conn1 : List String)
    (u : MonUpdate) (h : monIterConf obs w conn1 = Sum.inl u) :
    u.waited = w ∧ u.status = "connected" ∧
      ((u.rule = MonRule.graceConf ∨ u.rule = MonRule.graceCli) → 10 ≤ w) := by
  simp only [monIterConf] at h
  split at h
  · obtain rfl := Sum.inl.inj h
    exact ⟨rfl, rfl, fun hr => by rcases hr with h1 | h1 <;> simp at h1⟩
  · split at h
    · next hcond =>
      obtain rfl := Sum.inl.inj h
      exact ⟨rfl, rfl, fun _ => hcond.2⟩
    · split at h
      · simp at h
      · split at h
        · split at h
          · obtain rfl := Sum.inl.inj h
            exact ⟨rfl, rfl, fun hr => by rcases hr with h1 | h1 <;> simp at h1⟩
          · split at h
            · next hcond =>
              obtain rfl := Sum.inl.inj h
              exact ⟨rfl, rfl, fun _ => hcond.2⟩
            · simp at h
        · simp at h

/-- Every decision the full loop body fires writes `connected`, records the
current `total_waited`, and takes a grace exit only at or after the
10-second threshold. -/
theorem monIter_spec (sip dest : String) (obs : MonObs) (w : Nat)
    (conn : List String) (u : MonUpdate)
    (h : monIter sip dest obs w conn = Sum.inl u) :
    u.waited = w ∧ u.status = "connected" ∧
      ((u.rule = MonRule.graceConf ∨ u.rule = MonRule.graceCli) → 10 ≤ w) := by
  simp only [monIter] at h
  split at h
  · split at h
    · obtain rfl := Sum.inl.inj h
      exact ⟨rfl, rfl, fun hr => by rcases hr with h1 | h1 <;> simp at h1⟩
    · exact monIterConf_spec obs w _ u h
  · exact monIterConf_spec obs w conn u h

/-- Loop invariant of the monitor's polling loop: whatever the trace shows,
the update written is a `connected` update, made no later than the window
boundary, and grace exits happen no earlier than the 10-second threshold. -/
theorem monLoop_spec (sip dest : String) (trace : Nat → Option MonObs) :
    ∀ fuel i w conn, w % 2 = 0 → w ≤ 30 →
      (monLoop sip dest trace fuel i w conn).status = "connected" ∧
      (monLoop sip dest trace fuel i w conn).waited ≤ 30 ∧
      (((monLoop sip dest trace fuel i w conn).rule = MonRule.graceConf ∨
        (monLoop sip dest trace fuel i w conn).rule = MonRule.graceCli) →
        10 ≤ (monLoop sip dest trace fuel i w conn).waited) := by
  intro fuel
  induction fuel with
  | zero =>
    intro i w conn _ hw
    exact ⟨rfl, hw, fun hr => by rcases hr with h1 | h1 <;> simp [monLoop, monTimeoutUpdate] at h1⟩
  | succ n ih =>
    intro i w conn he hw
    by_cases hlt : w < 30
    · cases htr : trace i with
      | none =>
        have e : monLoop sip dest trace (n + 1) i w conn =
            monErrorUpdate w "AMI send action failed" := by
          rw [monLoop, if_pos hlt, htr]
        rw [e]
        exact ⟨rfl, hw, fun hr => by rcases hr with h1 | h1 <;> simp [monErrorUpdate] at h1⟩
      | some obs =>
        cases hit : monIter sip dest obs w conn with
        | inl u =>
          have e : monLoop sip dest trace (n + 1) i w conn = u := by
            rw [monLoop, if_pos hlt, htr]
            dsimp only
            rw [hit]
          rw [e]
          have hu := monIter_spec sip dest obs w conn u hit
          refine ⟨hu.2.1, ?_, fun hr => ?_⟩
          · rw [hu.1]; exact hw
          · rw [hu.1]; exact hu.2.2 hr
        | inr conn2 =>
          have e : monLoop sip dest trace (n + 1) i w conn =
              monLoop sip dest trace n (i + 1) (w + 2) conn2 := by
            rw [monLoop, if_pos hlt, htr]
            dsimp only
            rw [hit]
          rw [e]
          exact ih (i + 1) (w + 2) conn2 (by omega) (by omega)
    · have e : monLoop sip dest trace (n + 1) i w conn = monTimeoutUpdate w conn := by
        rw [monLoop, if_neg hlt]
      rw [e]
      exact ⟨rfl, hw, fun hr => by rcases hr with h1 | h1 <;> simp [monTimeoutUpdate] at h1⟩

/-- C2: whenever the monitored call's record exists, the monitor writes some
`connected` update (it never leaves the record in `dialing` forever), and
when the switch reports zero channels for the entire window, the update is
made exactly at the 30-second timeout boundary with the timeout rule. -/
theorem c2_timeout_forces_connected :
    ∀ (sip dest : String) (amiOk : Bool) (trace : Nat → Option MonObs),
      (∃ u, monitor_call_status sip dest true amiOk trace = some u ∧
        u.status = "connected") ∧
      monitor_call_status sip dest true true (fun _ => some emptyMonObs) =
        some (monTimeoutUpdate 30 []) := by
  intro sip dest amiOk trace
  constructor
  · cases amiOk with
    | false => exact ⟨monErrorUpdate 0 "Failed to connect to AMI", rfl, rfl⟩
    | true =>
      exact ⟨monLoop sip dest trace 16 0 0 [], rfl,
        (monLoop_spec sip dest trace 16 0 0 [] (by norm_num) (by norm_num)).1⟩
  · rfl

/-- C3: a failed connect to the switch's manager interface — and any failed
poll mid-monitoring — is absorbed: the record is marked `connected` with the
error message recorded, and no update the monitor ever makes is `failed`. -/
theorem c3_monitor_error_lenient :
    ∀ (sip dest : String) (trace : Nat → Option MonObs),
      monitor_call_status sip dest true false trace =
        some (monErrorUpdate 0 "Failed to connect to AMI") ∧
      (trace 0 = none →
        monitor_call_status sip dest true true trace =
          some (monErrorUpdate 0 "AMI send action failed")) ∧
      (∀ (amiOk : Bool) (u : MonUpdate),
        monitor_call_status sip dest true amiOk trace = some u →
          u.status = "connected" ∧ ¬ u.status = "failed") := by
  intro sip dest trace
  refine ⟨rfl, ?_, ?_⟩
  · intro h0
    have e : monitor_call_status sip dest true true trace =
        some (monLoop sip dest trace (15 + 1) 0 0 []) := rfl
    rw [e, monLoop, if_pos (by norm_num : (0 : Nat) < 30), h0]
  · intro amiOk u h
    cases amiOk with
    | false =>
      rw [show monitor_call_status sip dest true false trace =
        some (monErrorUpdate 0 "Failed to connect to AMI") from rfl] at h
      obtain rfl := Option.some.inj h
      exact ⟨rfl, by decide⟩
    | true =>
      rw [show monitor_call_status sip dest true true trace =
        some (monLoop sip dest trace 16 0 0 []) from rfl] at h
      obtain rfl := Option.some.inj h
      have hs := (monLoop_spec sip dest trace 16 0 0 [] (by norm_num) (by norm_num)).1
      exact ⟨hs, by rw [hs]; decide⟩

/-- C3 witness: the concrete always-failing trace. -/
theorem c3_monitor_error_lenient_witness :
    monitor_call_status "2001" "5551234567" true false (fun _ => none) =
      some (monErrorUpdate 0 "Failed to connect to AMI") ∧
    monitor_call_status "2001" "5551234567" true true (fun _ => none) =
      some (monErrorUpdate 0 "AMI send action failed") ∧
    ((monErrorUpdate 0 "Failed to connect to AMI").status = "connected" ∧
      ¬ (monErrorUpdate 0 "Failed to connect to AMI").status = "failed") :=
  ⟨(c3_monitor_error_lenient "2001" "5551234567" (fun _ => none)).1,
   (c3_monitor_error_lenient "2001" "5551234567" (fun _ => none)).2.1 rfl,
   (c3_monitor_error_lenient "2001" "5551234567" (fun _ => none)).2.2 false
     (monErrorUpdate 0 "Failed to connect to AMI") rfl⟩

/-- C4: a grace-rule exit (candidate set of exactly 1 member) happens only
at or after the 10-second threshold, every update is written no later than
the window boundary, and for a switch that reports exactly one matching
channel for the whole window the record is marked `connected` exactly at
the 10-second grace threshold. -/
theorem c4_grace_threshold :
    (∀ (sip dest : String) (trace : Nat → Option MonObs) (u : MonUpdate),
      monitor_call_status sip dest true true trace = some u →
        u.waited ≤ 30 ∧
        ((u.rule = MonRule.graceConf ∨ u.rule = MonRule.graceCli) →
          10 ≤ u.waited)) ∧
    monitor_call_status "2001" "5551234567" true true
        (fun _ => some oneChannelObs) = some oneChannelUpdate := by
  constructor
  · intro sip dest trace u h
    rw [show monitor_call_status sip dest true true trace =
      some (monLoop sip dest trace 16 0 0 []) from rfl] at h
    obtain rfl := Option.some.inj h
    have hs := monLoop_spec sip dest trace 16 0 0 [] (by norm_num) (by norm_num)
    exact ⟨hs.2.1, hs.2.2⟩
  · rfl

/-- C4 witness: the one-channel window, which fires the grace rule at 10
seconds, within the bounds of the general statement. -/
theorem c4_grace_threshold_witness :
    oneChannelUpdate.waited ≤ 30 ∧
    ((oneChannelUpdate.rule = MonRule.graceConf ∨
      oneChannelUpdate.rule = MonRule.graceCli) →
      10 ≤ oneChannelUpdate.waited) :=
  c4_grace_threshold.1 "2001" "5551234567" (fun _ => some oneChannelObs)
    oneChannelUpdate c4_grace_threshold.2

/-- Digit characters produced by the room generator. -/
theorem digitChar_isDigit : ∀ k : Nat, k < 10 → (Nat.digitChar k).isDigit = true := by
  decide

/-- C5 counterexample: on a concrete successful origination, the conference
room is stored on the record (event index 3) only after the agent leg is
originated (event index 2), refuting "generated and stored on the record
before any leg is originated". -/
theorem c5_room_stored_counterexample :
    ¬ roomStoredBeforeOrigination
      (initiate_call_asterisk
        ⟨"call-1", "initiated", none, "5551234567", "2001", "sip-trunk-1",
          none, none⟩
        (fun _ => 3) true (some "Response: Success\r\nActionID: a1\r\n\r\n")
        (some "Response: Success\r\nActionID: c1\r\n\r\n") 1000).1 := by
  rintro ⟨i, j, h1, h2, h3⟩
  have e1 : (initiate_call_asterisk
      ⟨"call-1", "initiated", none, "5551234567", "2001", "sip-trunk-1",
        none, none⟩
      (fun _ => 3) true (some "Response: Success\r\nActionID: a1\r\n\r\n")
      (some "Response: Success\r\nActionID: c1\r\n\r\n") 1000).1.findIdx?
        isStoreRoomEv = some 3 := rfl
  have e2 : (initiate_call_asterisk
      ⟨"call-1", "initiated", none, "5551234567", "2001", "sip-trunk-1",
        none, none⟩
      (fun _ => 3) true (some "Response: Success\r\nActionID: a1\r\n\r\n")
      (some "Response: Success\r\nActionID: c1\r\n\r\n") 1000).1.findIdx?
        isOriginateEv = some 2 := rfl
  rw [e1] at h1
  rw [e2] at h2
  have hi := Option.some.inj h1
  have hj := Option.some.inj h2
  omega

/-- C5 (amended): on the success path, the steps occur in this order: the
random 6-digit numeric conference room identifier is generated before any
leg is originated; the agent leg is originated first; the room is stored on
the record right after the agent origination; the fixed 2-second settle
delay elapses; the destination leg is originated via the configured trunk;
the monitor task is started; and only then is the record transitioned to
`dialing` carrying the conference room, both correlation identifiers, and a
start timestamp. -/
theorem c5_origination_order_amended :
    ∀ (rec : CallRecord) (rng : Nat → Nat) (agentResp custResp : Option String)
      (now : Nat),
      (initiate_call_asterisk rec rng true agentResp custResp now).1.findIdx?
          isGenRoomEv = some 0 ∧
      (initiate_call_asterisk rec rng true agentResp custResp now).1.getD 0
          (.amiCloseEv) = .genRoom (confRoomOf rng) ∧
      (initiate_call_asterisk rec rng true agentResp custResp now).1.findIdx?
          (isLegOrigEv .agent) = some 2 ∧
      (initiate_call_asterisk rec rng true agentResp custResp now).1.findIdx?
          isStoreRoomEv = some 3 ∧
      (initiate_call_asterisk rec rng true agentResp custResp now).1.findIdx?
          isSleepEv = some 5 ∧
      (initiate_call_asterisk rec rng true agentResp custResp now).1.getD 5
          (.updateStatus "") = .sleepSecs 2 ∧
      (initiate_call_asterisk rec rng true agentResp custResp now).1.findIdx?
          (isLegOrigEv .customer) = some 6 ∧
      (initiate_call_asterisk rec rng true agentResp custResp now).1.getD 6
          (.updateStatus "") =
        .sendOriginate .customer
          (originateParams ("SIP/" ++ rec.sip_trunk ++ "/" ++ rec.destination)
            (confRoomOf rng) (callerIdOf rec.caller_id).1
            (callerIdOf rec.caller_id).2) ∧
      (initiate_call_asterisk rec rng true agentResp custResp now).1.findIdx?
          isMonitorEv = some 8 ∧
      (initiate_call_asterisk rec rng true agentResp custResp now).1.findIdx?
          (isStatusEv "dialing") = some 9 ∧
      (initiate_call_asterisk rec rng true agentResp custResp now).2 =
        .dialing { conference_room := confRoomOf rng, start_time := now,
                   agent_action_id := parseActionId (agentResp.getD ""),
                   customer_action_id := parseActionId (custResp.getD "") } ∧
      (confRoomOf rng).length = 6 ∧
      (∀ c ∈ (confRoomOf rng).toList, c.isDigit = true) := by
  intro rec rng agentResp custResp now
  refine ⟨rfl, rfl, rfl, rfl, rfl, rfl, rfl, rfl, rfl, rfl, rfl, rfl, ?_⟩
  intro c hc
  simp only [confRoomOf, String.toList, List.mem_map, List.mem_range] at hc
  obtain ⟨i, _, rfl⟩ := hc
  exact digitChar_isDigit _ (Nat.mod_lt _ (by norm_num))

/-- C5 witness: a digit of the concrete room generated by the constant
random stream. -/
theorem c5_origination_order_witness : ('3' : Char).isDigit = true :=
  (c5_origination_order_amended
    ⟨"call-1", "initiated", none, "5551234567", "2001", "sip-trunk-1",
      none, none⟩
    (fun _ => 3) (some "Response: Success\r\nActionID: a1\r\n\r\n")
    (some "Response: Success\r\nActionID: c1\r\n\r\n")
    1000).2.2.2.2.2.2.2.2.2.2.2.2 '3' (by decide)

/-- C6: when origination raises (the failed connect to the switch), the
record transitions to `failed` with the error message stored, the monitor is
never started, and on every exit path — success or failure — the AMI
connection scope is closed last. -/
theorem c6_origination_error_handling :
    ∀ (rec : CallRecord) (rng : Nat → Nat) (agentResp custResp : Option String)
      (now : Nat),
      (initiate_call_asterisk rec rng false agentResp custResp now).2 =
        .failedWith "Failed to connect to AMI" ∧
      (initiate_call_asterisk rec rng false agentResp custResp now).1 =
        [.genRoom (confRoomOf rng), .amiConnectEv, .updateStatus "failed",
         .amiCloseEv] ∧
      (initiate_call_asterisk rec rng false agentResp custResp now).1.any
        isMonitorEv = false ∧
      (∀ amiOk : Bool,
        (initiate_call_asterisk rec rng amiOk agentResp custResp now).1.getLast?
          = some .amiCloseEv) := by
  intro rec rng agentResp custResp now
  refine ⟨rfl, rfl, rfl, ?_⟩
  intro amiOk
  cases amiOk <;> rfl

/-- C9: teardown issues the eviction command first and only then transitions
the record to `completed` with an end timestamp; when eviction fails, no
status update is made at all (the record is left unchanged). -/
theorem c9_teardown_order :
    ∀ (rec : CallRecord) (kickOk : Bool) (now : Nat) (room : String),
      rec.conference_room = some room →
      ((hangup_call rec kickOk now).1.head? = some (.kickAll room) ∧
       (kickOk = true → hangup_call rec kickOk now =
         ([.kickAll room, .updateCompleted now],
          some { status := "completed", end_time := now })) ∧
       (kickOk = false → (hangup_call rec kickOk now).2 = none ∧
         (hangup_call rec kickOk now).1 = [.kickAll room])) := by
  intro rec kickOk now room h
  simp only [hangup_call, h]
  cases kickOk <;> simp

/-- C9 witness: a concrete dialing record with a room, torn down once
successfully and once with a failing eviction. -/
theorem c9_teardown_order_witness :
    ((hangup_call ⟨"c9", "dialing", none, "", "", "", some "111222", none⟩
        true 5).1.head? = some (.kickAll "111222") ∧
     (true = true → hangup_call ⟨"c9", "dialing", none, "", "", "",
        some "111222", none⟩ true 5 =
       ([.kickAll "111222", .updateCompleted 5],
        some { status := "completed", end_time := 5 })) ∧
     (true = false → (hangup_call ⟨"c9", "dialing", none, "", "", "",
        some "111222", none⟩ true 5).2 = none ∧
       (hangup_call ⟨"c9", "dialing", none, "", "", "",
        some "111222", none⟩ true 5).1 = [.kickAll "111222"])) :=
  c9_teardown_order ⟨"c9", "dialing", none, "", "", "", some "111222", none⟩
    true 5 "111222" rfl

/-- C10: a play-TTS request for an existing record is scheduled if and only
if the record's status is `connected` or `dialing`; any other status is
rejected with a 400 error response and no playback is attempted. -/
theorem c10_play_tts_gate :
    ∀ (records : List CallRecord) (callId : String) (r : CallRecord),
      get_call_by_id records callId = some r →
      ((play_tts records callId = .scheduled ↔
        (r.status = "connected" ∨ r.status = "dialing")) ∧
       ((r.status ≠ "connected" ∧ r.status ≠ "dialing") →
        play_tts records callId = .rejected 400 "Call is not active")) := by
  intro records callId r h
  simp only [play_tts, h]
  constructor
  · constructor
    · intro hs
      by_contra hns
      push_neg at hns
      rw [if_pos ⟨hns.1, hns.2⟩] at hs
      simp at hs
    · intro hor
      rw [if_neg]
      rintro ⟨hc, hd⟩
      rcases hor with h1 | h1
      · exact hc h1
      · exact hd h1
  · intro hcond
    rw [if_pos hcond]

/-- C10 witness: a dialing record is accepted; flipping its status to
`completed` yields the 400 rejection. -/
theorem c10_play_tts_gate_witness :
    (play_tts [⟨"x", "dialing", none, "", "", "", none, none⟩] "x" =
        .scheduled ↔
      ((⟨"x", "dialing", none, "", "", "", none, none⟩ : CallRecord).status =
          "connected" ∨
        (⟨"x", "dialing", none, "", "", "", none, none⟩ : CallRecord).status =
          "dialing")) ∧
    (((⟨"x", "dialing", none, "", "", "", none, none⟩ : CallRecord).status ≠
        "connected" ∧
      (⟨"x", "dialing", none, "", "", "", none, none⟩ : CallRecord).status ≠
        "dialing") →
      play_tts [⟨"x", "dialing", none, "", "", "", none, none⟩] "x" =
        .rejected 400 "Call is not active") :=
  c10_play_tts_gate [⟨"x", "dialing", none, "", "", "", none, none⟩] "x"
    ⟨"x", "dialing", none, "", "", "", none, none⟩ rfl

/-- C8: when all discovery strategies find no channel and the switch has
more active channels than the last-resort cap of 5, playback fails rather
than broadcasting to every active channel. -/
theorem c8_last_resort_cap :
    ∀ (rec : CallRecord) (env : PlayEnv) (room file : String),
      rec.conference_room = some room →
      rec.tts_file = some file →
      env.fileExists = true →
      env.amiOk = true →
      (discoveredChannels rec env).1 = [] →
      5 < (discoveredChannels rec env).2.length →
      play_tts_in_conference rec env = false := by
  intro rec env room file hroom hfile hfe hami hdisc hlen
  simp only [play_tts_in_conference, hroom, hfile, hfe, hami, hdisc]
  simp only [Bool.not_true, Bool.false_eq_true, if_false, List.isEmpty_nil,
    if_true]
  rw [if_neg]
  rintro ⟨_, hle⟩
  omega

/-- C8 witness: six active channels, none discoverable for the call. -/
theorem c8_last_resort_cap_witness :
    play_tts_in_conference
      ⟨"c8", "connected", none, "5551234567", "2001", "trunk", some "123456",
        some "/tmp/t.gsm"⟩
      { fileExists := true, amiOk := true,
        allChannelsLines :=
          ["Channel: SIP/7100-1", "Channel: SIP/7100-2", "Channel: SIP/7100-3",
           "Channel: SIP/7100-4", "Channel: SIP/7100-5", "Channel: SIP/7100-6"],
        confRoomsLines := [], confLines := [], cli := some [],
        originateResp := fun _ => "", cliPlayOut := fun _ => "" } = false :=
  c8_last_resort_cap
    ⟨"c8", "connected", none, "5551234567", "2001", "trunk", some "123456",
      some "/tmp/t.gsm"⟩
    { fileExists := true, amiOk := true,
      allChannelsLines :=
        ["Channel: SIP/7100-1", "Channel: SIP/7100-2", "Channel: SIP/7100-3",
         "Channel: SIP/7100-4", "Channel: SIP/7100-5", "Channel: SIP/7100-6"],
      confRoomsLines := [], confLines := [], cli := some [],
      originateResp := fun _ => "", cliPlayOut := fun _ => "" }
    "123456" "/tmp/t.gsm" rfl rfl rfl rfl rfl (by decide)

/-- Every reachable per-call state is one of the six listed states. -/
theorem sysReachable_mem (s : Sys) (h : SysReachable s) : s ∈ sysStates := by
  induction h with
  | refl => decide
  | tail _ hbc ih =>
    cases hbc with
    | originateOk hst ho => decide
    | originateFail hst ho => decide
    | monitorFires hm => fin_cases ih <;> revert hm <;> decide
    | hangupRuns hst => fin_cases ih <;> revert hst <;> decide

/-- C1 counterexample: teardown during the monitoring window yields a
reachable `completed` state from which the still-armed monitor performs a
`completed → connected` write — an edge outside the spec's table, so a
record that reached `completed` can still change status. -/
theorem c1_status_machine_counterexample :
    SysReachable ⟨"completed", true, true⟩ ∧
    SysStep ⟨"completed", true, true⟩ ⟨"connected", true, false⟩ ∧
    ("completed", "connected") ∉ specEdges :=
  ⟨Relation.ReflTransGen.tail
      (Relation.ReflTransGen.single (SysStep.originateOk initSys rfl rfl))
      (SysStep.hangupRuns ⟨"dialing", true, true⟩ (Or.inl rfl)),
   SysStep.monitorFires ⟨"completed", true, true⟩ rfl,
   by decide⟩

/-- C1 (amended): from any reachable state, every status write follows an
edge of the spec's state-machine table, except that a monitor still armed
from before teardown may overwrite `completed` with `connected`; a record
that reached `failed` never changes again (the monitor is only armed on the
success path). -/
theorem c1_status_machine_amended (s : Sys) (hs : SysReachable s) :
    (∀ t, SysStep s t →
      (s.status, t.status) ∈ specEdges ∨
        (s.status = "completed" ∧ t.status = "connected" ∧
          s.monPending = true)) ∧
    (s.status = "failed" → ∀ t, ¬ SysStep s t) := by
  have hmem := sysReachable_mem s hs
  constructor
  · intro t ht
    cases ht with
    | originateOk hst ho => left; rw [hst]; decide
    | originateFail hst ho => left; rw [hst]; decide
    | monitorFires hm => fin_cases hmem <;> revert hm <;> decide
    | hangupRuns hst => fin_cases hmem <;> revert hst <;> decide
  · intro hfail t ht
    cases ht with
    | originateOk hst ho => rw [hfail] at hst; exact absurd hst (by decide)
    | originateFail hst ho => rw [hfail] at hst; exact absurd hst (by decide)
    | monitorFires hm => fin_cases hmem <;> revert hfail hm <;> decide
    | hangupRuns hst =>
      rcases hst with h1 | h1 <;> (rw [hfail] at h1; exact absurd h1 (by decide))

/-- C1 witness: the `dialing → connected` monitor write from the reachable
dialing state follows the spec's table. -/
theorem c1_status_machine_witness :
    ((Sys.mk "dialing" true true).status,
      (Sys.mk "connected" true false).status) ∈ specEdges ∨
    ((Sys.mk "dialing" true true).status = "completed" ∧
      (Sys.mk "connected" true false).status = "connected" ∧
      (Sys.mk "dialing" true true).monPending = true) :=
  (c1_status_machine_amended ⟨"dialing", true, true⟩
      (Relation.ReflTransGen.single (SysStep.originateOk initSys rfl rfl))).1
    ⟨"connected", true, false⟩
    (SysStep.monitorFires ⟨"dialing", true, true⟩ rfl)

end VoiceClone
